import Mathlib

/-!
Verification of the Curation & Delivery Pipeline of the `ai_frontier`
repository, as a shallow embedding in Lean 4.

Conventions of the embedding:
* Python text is modelled as `List Char` (abbreviated `Str`), so that all
  string operations compute by kernel reduction.
* Python `datetime` values are modelled as `PyDateTime`: an integer clock
  value (microseconds) plus an optional timezone marker (`none` = naive,
  `some ()` = UTC, the only timezone the code attaches).  ISO-format
  strings of same-format datetimes compare lexicographically exactly as
  their clock values compare, so `created_at.isoformat()` sort keys are
  modelled by the integer clock value.
* Python floats that carry model scores (values in [0, 10], compared and
  range-checked but never arithmetically combined) are modelled as `ℚ`.
* The SQLAlchemy session/digest table is modelled as a `List Digest` in
  insertion order; `datetime.now(timezone.utc)` is passed in explicitly as
  a `now` parameter.
* Fallible Python code returns `Except`/`Option`; exception classes that
  the code distinguishes (`json.JSONDecodeError`/`ValueError` versus
  `TypeError`) are distinguished in `PyErr`.
-/

namespace AIFrontier

/-- Python text, as a list of characters. -/
abbrev Str := List Char

/-- A Python `datetime`: clock value in microseconds plus optional tzinfo.
`tz = none` models a naive datetime, `tz = some ()` one carrying
`timezone.utc` (the only tzinfo the pipeline ever attaches). -/
structure PyDateTime where
  t : Int
  tz : Option Unit
deriving Repr, DecidableEq

/-- Microseconds per hour, for `timedelta(hours=...)`. -/
def microsPerHour : Int := 3600000000

/-- Row of the `digests` table (`src/app/database/models.py`, class `Digest`). -/
structure Digest where
  id : Str
  article_type : Str
  article_id : Str
  url : Str
  title : Str
  summary : Str
  relevance_score : Option ℚ
  reasoning : Option Str
  category : Option Str
  created_at : PyDateTime
  sent_at : Option PyDateTime
deriving Repr, DecidableEq

/-- The digest store: the rows of the `digests` table in insertion order. -/
abbrev DigestStore := List Digest

/-- The composite id `f"{article_type}:{article_id}"`. -/
def compositeId (article_type article_id : Str) : Str :=
  article_type ++ [':'] ++ article_id

/-- Embeds `DigestRepository.create_digest` (`src/app/database/digest_repository.py`).
Returns the created digest (or `none` on a duplicate id) together with the
resulting store.  `now` stands for `datetime.now(timezone.utc)`. -/
def create_digest (store : DigestStore)
    (article_type article_id url title summary : Str)
    (relevance_score : Option ℚ) (reasoning category : Option Str)
    (published_at : Option PyDateTime) (now : PyDateTime) :
    Option Digest × DigestStore :=
  let digest_id := compositeId article_type article_id
  if ∃ d ∈ store, d.id = digest_id then
    (none, store)
  else
    let created_at : PyDateTime :=
      match published_at with
      | some p => if p.tz = none then { p with tz := some () } else p
      | none => now
    let digest : Digest :=
      { id := digest_id, article_type := article_type, article_id := article_id,
        url := url, title := title, summary := summary,
        relevance_score := relevance_score, reasoning := reasoning,
        category := category, created_at := created_at, sent_at := none }
    (some digest, store ++ [digest])

/-- Descending-`created_at` ordering used by
`query.order_by(Digest.created_at.desc())`. -/
def createdDescRel (a b : Digest) : Prop := b.created_at.t ≤ a.created_at.t

instance : DecidableRel createdDescRel := fun a b =>
  inferInstanceAs (Decidable (b.created_at.t ≤ a.created_at.t))

instance : IsTotal Digest createdDescRel :=
  ⟨fun a b => le_total b.created_at.t a.created_at.t⟩

instance : IsTrans Digest createdDescRel :=
  ⟨fun _ _ _ h1 h2 => le_trans h2 h1⟩

/-- Embeds `DigestRepository.get_recent_digests`: rows with
`created_at >= now - hours`, minus sent rows when `exclude_sent`, ordered by
`created_at` descending. -/
def get_recent_digests (store : DigestStore) (now : PyDateTime) (hours : Nat)
    (exclude_sent : Bool) : List Digest :=
  let cutoff := now.t - (hours : Int) * microsPerHour
  let inWindow := store.filter (fun d => decide (cutoff ≤ d.created_at.t))
  let rows := if exclude_sent then inWindow.filter (fun d => decide (d.sent_at = none)) else inWindow
  List.insertionSort createdDescRel rows

/-- Embeds `DigestRepository.mark_digests_as_sent`: sets `sent_at := now` on every
row whose id is in `digest_ids` (no filter on `sent_at` being null) and
returns the number of rows updated. -/
def mark_digests_as_sent (store : DigestStore) (digest_ids : List Str)
    (now : PyDateTime) : Nat × DigestStore :=
  ((store.filter (fun d => decide (d.id ∈ digest_ids))).length,
   store.map (fun d => if d.id ∈ digest_ids then { d with sent_at := some now } else d))

/-- Embeds `DigestRepository.get_recent_digest_ids`: the ids of rows with
`created_at >= now - hours`. -/
def get_recent_digest_ids (store : DigestStore) (now : PyDateTime) (hours : Nat) :
    List Str :=
  (store.filter (fun d =>
    decide (now.t - (hours : Int) * microsPerHour ≤ d.created_at.t))).map (fun d => d.id)

/-- The parsed model response (`CuratorDigestOutput`,
`src/app/agent/curator_digest_agent.py`). -/
structure CuratorDigestOutput where
  title : Str
  summary : Str
  relevance_score : ℚ
  reasoning : Str
  category : Str
deriving Repr, DecidableEq

/-- An item handed to `DigestProcessor` (a dict with `type`, `id`, `url`,
`title`, `content`, `published_at` keys). -/
structure Item where
  type : Str
  id : Str
  url : Str
  title : Str
  content : Str
  published_at : Option PyDateTime
deriving Repr

/-- Embeds `DigestProcessor.save_result` (`src/app/services/process_digest.py`):
persists via `create_digest` and returns `false` when the digest already
exists (`create_digest` returned `None`). -/
def save_result (store : DigestStore) (item : Item) (result : CuratorDigestOutput)
    (now : PyDateTime) : Bool × DigestStore :=
  let r := create_digest store item.type item.id item.url result.title result.summary
    (some result.relevance_score) (some result.reasoning) (some result.category)
    item.published_at now
  match r.1 with
  | none => (false, r.2)
  | some _ => (true, r.2)

/-- The per-run aggregate of `BaseProcessService.process`. -/
structure RunStats where
  total : Nat
  processed : Nat
  failed : Nat
deriving Repr, DecidableEq

/-- One iteration of the loop in `BaseProcessService.process`
(`src/app/services/base.py`), specialised to `DigestProcessor`:
`oracle item` is the result of `process_item` (the model capability;
`generate_digest_with_score` catches every exception and returns `None`,
so `none` covers both model failure and extraction failure). -/
def processStep (oracle : Item → Option CuratorDigestOutput) (now : PyDateTime)
    (acc : Nat × Nat × DigestStore) (item : Item) : Nat × Nat × DigestStore :=
  match oracle item with
  | none => (acc.1, acc.2.1 + 1, acc.2.2)
  | some result =>
    let r := save_result acc.2.2 item result now
    if r.1 then (acc.1 + 1, acc.2.1, r.2) else (acc.1, acc.2.1 + 1, r.2)

/-- Embeds `BaseProcessService.process` specialised to `DigestProcessor`: iterates
over the items, counting `processed`/`failed`, and returns the aggregate
`{total, processed, failed}` together with the final store. -/
def process (oracle : Item → Option CuratorDigestOutput) (items : List Item)
    (store : DigestStore) (now : PyDateTime) : RunStats × DigestStore :=
  let acc := items.foldl (processStep oracle now) (0, 0, store)
  ({ total := items.length, processed := acc.1, failed := acc.2.1 }, acc.2.2)

/-! ### Ranker & Selector (`src/app/services/process_email.py`) -/

/-- Lines 34-41 of `generate_email_digest`: keep the digests that have a
`relevance_score`; if none do, fall back to all digests. -/
def scoredSelection (digests : List Digest) : List Digest :=
  let scored := digests.filter (fun d => d.relevance_score.isSome)
  if scored.isEmpty then digests else scored

/-- The Python sort key
`(score if score is not None else 0.0, created_at.isoformat())` of one
digest.  The ISO string of `created_at` compares lexicographically exactly
as the clock value compares, so the second component is the clock value. -/
def digestKey (d : Digest) : ℚ × Int :=
  (d.relevance_score.getD 0, d.created_at.t)

/-- Lexicographic `≤` on sort keys, as Python compares key tuples. -/
def keyLE (a b : ℚ × Int) : Prop := a.1 < b.1 ∨ (a.1 = b.1 ∧ a.2 ≤ b.2)

instance : DecidableRel keyLE := fun a b =>
  inferInstanceAs (Decidable (a.1 < b.1 ∨ (a.1 = b.1 ∧ a.2 ≤ b.2)))

/-- Holds when `a` comes no later than `b` in the descending sort
(`sort(key=..., reverse=True)`): the key of `b` is at most the key of `a`. -/
def rankRel (a b : Digest) : Prop := keyLE (digestKey b) (digestKey a)

instance : DecidableRel rankRel := fun a b =>
  inferInstanceAs (Decidable (keyLE (digestKey b) (digestKey a)))

theorem keyLE_total (a b : ℚ × Int) : keyLE a b ∨ keyLE b a := by
  rcases lt_trichotomy a.1 b.1 with h | h | h
  · exact Or.inl (Or.inl h)
  · rcases le_total a.2 b.2 with h2 | h2
    · exact Or.inl (Or.inr ⟨h, h2⟩)
    · exact Or.inr (Or.inr ⟨h.symm, h2⟩)
  · exact Or.inr (Or.inl h)

theorem keyLE_trans {a b c : ℚ × Int} (h1 : keyLE a b) (h2 : keyLE b c) :
    keyLE a c := by
  rcases h1 with h1 | ⟨h1e, h1le⟩
  · rcases h2 with h2 | ⟨h2e, _⟩
    · exact Or.inl (lt_trans h1 h2)
    · exact Or.inl (h2e ▸ h1)
  · rcases h2 with h2 | ⟨h2e, h2le⟩
    · exact Or.inl (h1e ▸ h2)
    · exact Or.inr ⟨h1e.trans h2e, le_trans h1le h2le⟩

instance : IsTotal Digest rankRel :=
  ⟨fun a b => keyLE_total (digestKey b) (digestKey a)⟩

instance : IsTrans Digest rankRel :=
  ⟨fun _ _ _ h1 h2 => keyLE_trans h2 h1⟩

/-- The sorted list built by `generate_email_digest`: the scored selection
sorted by `relevance_score` descending, tie-broken by `created_at`
descending.  The Python `list.sort` method is stable, and a stable sort by a total
preorder is unique, so the stable `insertionSort` produces exactly the
list the Python sort produces. -/
def rankDigests (digests : List Digest) : List Digest :=
  List.insertionSort rankRel (scoredSelection digests)

/-- The selection delivered by the email pipeline:
`generate_email_digest` sorts, `create_email_digest_response`
(`src/app/agent/email_agent.py`) keeps `ranked_articles[:limit]`. -/
def rankAndSelect (digests : List Digest) (top_n : Nat) : List Digest :=
  (rankDigests digests).take top_n

/-! ### Delivery Tracker (`src/app/services/process_email.py`,
`src/app/agent/email_agent.py`) -/

/-- What the external send capability (`send_email`) does when invoked:
succeed, raise `ValueError` (missing configuration — the only exception
class `send_digest_email` catches), or raise a transport error
(`smtplib` exceptions, which `send_digest_email` does not catch). -/
inductive SendOutcome where
  | ok
  | failValueError (e : Str)
  | failTransport (e : Str)
deriving Repr, DecidableEq

/-- The result dict of `send_digest_email`. -/
structure SendResult where
  success : Bool
  skipped : Bool
  articles_count : Nat
  marked_as_sent : Nat
  error : Option Str
deriving Repr, DecidableEq

/-- Embeds `send_digest_email` (`src/app/services/process_email.py`): fetch the
unsent in-window digests; if none, report skipped; otherwise build the
digest email (ranking + truncation), invoke the send capability, and only
on send success mark exactly the delivered ids as sent.  A `ValueError`
is caught and reported as `success = False`; any other exception
propagates (`Except.error`).  Rendering (markdown/html/subject) does not
affect the store and is not modelled. -/
def send_digest_email (store : DigestStore) (now : PyDateTime)
    (hours top_n : Nat) (send : SendOutcome) :
    Except Str SendResult × DigestStore :=
  let digests := get_recent_digests store now hours true
  if digests.isEmpty then
    (Except.ok { success := true, skipped := true, articles_count := 0,
                 marked_as_sent := 0, error := none }, store)
  else
    let articles := rankAndSelect digests top_n
    match send with
    | SendOutcome.failTransport e => (Except.error e, store)
    | SendOutcome.failValueError e =>
        (Except.ok { success := false, skipped := false, articles_count := 0,
                     marked_as_sent := 0, error := some e }, store)
    | SendOutcome.ok =>
        let ids := articles.map (fun d => d.id)
        let r := mark_digests_as_sent store ids now
        (Except.ok { success := true, skipped := false,
                     articles_count := articles.length,
                     marked_as_sent := r.1, error := none }, r.2)

/-- Whether a `send_digest_email` result reports the skipped outcome. -/
def isSkipped : Except Str SendResult × DigestStore → Bool
  | (Except.ok r, _) => r.skipped
  | (Except.error _, _) => false

/-! ### Introduction step (`EmailAgent.generate_introduction`) -/

/-- The `EmailIntroduction` payload. -/
structure EmailIntroduction where
  greeting : Str
  introduction : Str
deriving Repr, DecidableEq

/-- What the model capability returns for the introduction call: an
exception, or a parsed `EmailIntroduction`. -/
inductive IntroCall where
  | fail (e : Str)
  | ok (intro : EmailIntroduction)
deriving Repr, DecidableEq

/-- The deterministic fallback greeting
`f"Hey {name}, here is your daily digest of AI news for {date}."`. -/
def fallbackGreeting (name date : Str) : Str :=
  ("Hey ".data) ++ name ++ (", here is your daily digest of AI news for ".data)
    ++ date ++ (".".data)

/-- The deterministic fallback introduction used on model failure. -/
def fallbackIntro : Str :=
  "Here are the top 10 AI news articles ranked by relevance to your interests.".data

/-- The expected personalized greeting start: "Hey " followed by the profile name. -/
def expectedGreetingStart (name : Str) : Str := ("Hey ".data) ++ name

/-- Embeds `EmailAgent.generate_introduction` (`src/app/agent/email_agent.py`):
empty article list gives a canned payload; a model exception gives the
fallback greeting and fallback introduction; a model result whose greeting
does not start with `"Hey {name}"` has only its greeting replaced by the
fallback greeting.  `date` stands for
the formatted current date (month name, day, year). -/
def generate_introduction (name date : Str) (ranked_articles : List Digest)
    (call : IntroCall) : EmailIntroduction :=
  if ranked_articles.isEmpty then
    { greeting := fallbackGreeting name date,
      introduction := "No articles were ranked today.".data }
  else
    match call with
    | IntroCall.fail _ =>
        { greeting := fallbackGreeting name date, introduction := fallbackIntro }
    | IntroCall.ok intro =>
        if (expectedGreetingStart name).isPrefixOf intro.greeting then intro
        else { greeting := fallbackGreeting name date,
               introduction := intro.introduction }

/-! ### Structured Output Extractor (`src/app/agent/base.py`)

`json.loads` is modelled by an executable parser for the JSON fragment the
pipeline exchanges: objects, arrays, strings without escape sequences,
numbers without exponents, `true`/`false`/`null`.  Inputs outside this
fragment fail to parse in the model; every concrete input used below lies
inside the fragment, where the model agrees with `json.loads`. -/

/-- A JSON value. -/
inductive Json where
  | null
  | bool (b : Bool)
  | num (q : ℚ)
  | str (s : Str)
  | arr (xs : List Json)
  | obj (fields : List (Str × Json))

/-- JSON whitespace accepted by `json.loads` between tokens. -/
def isJsonWs (c : Char) : Bool :=
  c = ' ' || c = '\t' || c = '\n' || c = '\r'

/-- Drop leading JSON whitespace. -/
def skipWs (s : Str) : Str := s.dropWhile isJsonWs

/-- Parse the remainder of a JSON string literal (opening quote already
consumed); escape sequences are outside the modelled fragment. -/
def parseStrChars : Str → Option (Str × Str)
  | [] => none
  | c :: rest =>
    if c = '"' then some ([], rest)
    else if c = '\\' then none
    else
      match parseStrChars rest with
      | some (cs, r) => some (c :: cs, r)
      | none => none

/-- Decimal digits to a natural number. -/
def digitsToNat (ds : Str) : Nat :=
  ds.foldl (fun n c => 10 * n + (c.toNat - 48)) 0

/-- Parse a JSON number (optional minus sign, digits, optional fraction;
exponents are outside the modelled fragment), as an exact rational. -/
def parseNum (s : Str) : Option (ℚ × Str) :=
  let p := match s with
    | '-' :: r => (true, r)
    | _ => (false, s)
  let ip := p.2.span Char.isDigit
  if ip.1.isEmpty then none
  else
    let fp : Str × Str := match ip.2 with
      | '.' :: r => r.span Char.isDigit
      | _ => ([], ip.2)
    match ip.2 with
    | '.' :: _ =>
      if fp.1.isEmpty then none
      else
        let mant : Int :=
          (if p.1 then -1 else 1) *
            ((digitsToNat ip.1) * 10 ^ fp.1.length + digitsToNat fp.1 : Nat)
        some (mkRat mant (10 ^ fp.1.length), fp.2)
    | _ =>
        let mant : Int := (if p.1 then -1 else 1) * (digitsToNat ip.1 : Nat)
        some (mkRat mant 1, ip.2)

/-- Parse one JSON value, returning it and the unconsumed remainder.
`fuel` bounds the recursion depth; `length + 1` always suffices because
every recursive call receives a strictly shorter argument. -/
def parseVal : Nat → Str → Option (Json × Str)
  | 0, _ => none
  | fuel + 1, s =>
    match skipWs s with
    | [] => none
    | c :: rest =>
      if c = '"' then
        match parseStrChars rest with
        | some (cs, r) => some (Json.str cs, r)
        | none => none
      else if c = '{' then
        match skipWs rest with
        | '}' :: r2 => some (Json.obj [], r2)
        | '"' :: r3 =>
          match parseStrChars r3 with
          | some (key, r4) =>
            match skipWs r4 with
            | ':' :: r5 =>
              match parseVal fuel r5 with
              | some (v, r6) =>
                match skipWs r6 with
                | ',' :: r7 =>
                  match parseVal fuel ('{' :: r7) with
                  | some (Json.obj fs, r8) => some (Json.obj ((key, v) :: fs), r8)
                  | _ => none
                | '}' :: r7 => some (Json.obj [(key, v)], r7)
                | _ => none
              | none => none
            | _ => none
          | none => none
        | _ => none
      else if c = '[' then
        match skipWs rest with
        | ']' :: r2 => some (Json.arr [], r2)
        | _ =>
          match parseVal fuel rest with
          | some (v, r3) =>
            match skipWs r3 with
            | ',' :: r4 =>
              match parseVal fuel ('[' :: r4) with
              | some (Json.arr vs, r5) => some (Json.arr (v :: vs), r5)
              | _ => none
            | ']' :: r4 => some (Json.arr [v], r4)
            | _ => none
          | none => none
      else if c = 't' then
        if rest.take 3 = ("rue".data) then some (Json.bool true, rest.drop 3) else none
      else if c = 'f' then
        if rest.take 4 = ("alse".data) then some (Json.bool false, rest.drop 4) else none
      else if c = 'n' then
        if rest.take 3 = ("ull".data) then some (Json.null, rest.drop 3) else none
      else
        match parseNum (c :: rest) with
        | some (q, r) => some (Json.num q, r)
        | none => none

/-- Embeds `json.loads`: parse a full document, rejecting trailing garbage. -/
def jsonLoads (s : Str) : Except Str Json :=
  match parseVal (s.length + 1) s with
  | some (j, rest) =>
      if (skipWs rest).isEmpty then Except.ok j
      else Except.error ("Extra data".data)
  | none => Except.error ("Expecting value".data)

/-- The Python exception classes `_parse_structured_output` distinguishes:
`json.JSONDecodeError` and `ValueError` (pydantic `ValidationError` is a
`ValueError`) are caught by its `except` clause; `TypeError` (raised by
`output_class(**data)` when `data` is not a dict) is not. -/
inductive PyErr where
  | parseErr (msg : Str)
  | valueErr (msg : Str)
  | typeErr (msg : Str)
deriving Repr, DecidableEq

/-- Whether `except (json.JSONDecodeError, ValueError)` catches the error. -/
def isCaught : PyErr → Bool
  | PyErr.parseErr _ => true
  | PyErr.valueErr _ => true
  | PyErr.typeErr _ => false

/-- The message carried by an error. -/
def errMsg : PyErr → Str
  | PyErr.parseErr m => m
  | PyErr.valueErr m => m
  | PyErr.typeErr m => m

/-- Embeds `json.loads(text)` followed by `output_class(**data)`:
one parse-and-validate attempt.  `build` models `output_class(**data)` for
the concrete pydantic `output_class`. -/
def attemptParse {O : Type} (build : Json → Except PyErr O) (s : Str) :
    Except PyErr O :=
  match jsonLoads s with
  | Except.error m => Except.error (PyErr.parseErr m)
  | Except.ok j => build j

/-- Helper for `str.find`: first index at which `pat` occurs in `s`, if any. -/
def subFindAux (pat : Str) : Str → Nat → Option Nat
  | [], i => if pat.isPrefixOf ([] : Str) then some i else none
  | c :: rest, i =>
      if pat.isPrefixOf (c :: rest) then some i else subFindAux pat rest (i + 1)

/-- Embeds `s.find(pat)` as an `Option` (Python returns `-1` for `none`). -/
def subFind (s pat : Str) : Option Nat := subFindAux pat s 0

/-- Python whitespace stripped by `str.strip()`. -/
def isPyWs (c : Char) : Bool :=
  c = ' ' || c = '\t' || c = '\n' || c = '\r' || c = '\x0b' || c = '\x0c'

/-- Embeds `s.strip()`. -/
def pyStrip (s : Str) : Str :=
  ((s.dropWhile isPyWs).reverse.dropWhile isPyWs).reverse

/-- Embeds `s[a:b]` with a possibly negative end index, as in Python slicing. -/
def pySlice (s : Str) (a : Nat) (b : Int) : Str :=
  let e : Nat := if b < 0 then ((s.length : Int) + b).toNat else b.toNat
  (s.take e).drop a

/-- The tagged fence marker. -/
def fenceJson : Str := "```json".data

/-- The plain fence marker. -/
def fence : Str := "```".data

/-- Lines 21-29 of `_parse_structured_output`: the reassignment of
`response_text` before the parse attempt.  If a `(three backticks)json`
marker occurs, the text between it and the next fence (to the last
character when no closing fence exists, the Python slice `[start:-1]`) is
stripped and used; else the same for a plain fence; else the raw text. -/
def extractWorkingText (text : Str) : Str :=
  match subFind text fenceJson with
  | some i =>
      let json_start := i + 7
      let json_end : Int :=
        match subFind (text.drop json_start) fence with
        | some k => ((json_start + k : Nat) : Int)
        | none => -1
      pyStrip (pySlice text json_start json_end)
  | none =>
      match subFind text fence with
      | some i =>
          let json_start := i + 3
          let json_end : Int :=
            match subFind (text.drop json_start) fence with
            | some k => ((json_start + k : Nat) : Int)
            | none => -1
          pyStrip (pySlice text json_start json_end)
      | none => text

/-- Embeds `re.search` of a greedy brace pattern with DOTALL on `w`: the span from
the first opening brace to the last closing brace, when the latter comes
after the former. -/
def braceSpan (w : Str) : Option Str :=
  match subFind w ['{'] with
  | none => none
  | some i =>
    match subFind w.reverse ['}'] with
    | none => none
    | some k =>
      let j := w.length - 1 - k
      if i < j then some (pySlice w i ((j : Nat) + 1)) else none

/-- The message of the final `ValueError` raised by
`_parse_structured_output`; `e` is the error caught by its `except`
clause (the error of the primary parse attempt). -/
def failMsg (e : PyErr) : Str :=
  ("Failed to parse structured output: ".data) ++ errMsg e

/-- Embeds `BaseAgent._parse_structured_output` (`src/app/agent/base.py`): choose
the working text (tagged fence contents, else fence contents, else the raw
text), parse-and-validate it; on a caught error, search the *working text*
for a greedy brace span and parse-and-validate that; if the fallback also
fails (its own error swallowed by the bare `except`), raise a `ValueError`
carrying the error of the primary attempt.  An uncaught error (`TypeError`)
propagates. -/
def parseStructuredOutput {O : Type} (build : Json → Except PyErr O)
    (response_text : Str) : Except PyErr O :=
  let w := extractWorkingText response_text
  match attemptParse build w with
  | Except.ok o => Except.ok o
  | Except.error e =>
    if isCaught e then
      match braceSpan w with
      | some span =>
        match attemptParse build span with
        | Except.ok o => Except.ok o
        | Except.error _ => Except.error (PyErr.valueErr (failMsg e))
      | none => Except.error (PyErr.valueErr (failMsg e))
    else Except.error e

/-- Modelled from the spec: the extraction algorithm as the claim words it
— ordered attempts with first success winning: (1)/(2) parse the fenced
contents of the block when a fence is present, (3) parse the raw text directly,
(4) on parse errors, parse the first greedy brace-matched span *of the
text*, (5) fail with the last underlying error.  Stated only to be
compared against `parseStructuredOutput`, which embeds the code. -/
def extractClaimAlgorithm {O : Type} (build : Json → Except PyErr O)
    (text : Str) : Except PyErr O :=
  let fenceAttempt : Option (Except PyErr O) :=
    if (subFind text fenceJson).isSome || (subFind text fence).isSome then
      some (attemptParse build (extractWorkingText text))
    else none
  match fenceAttempt with
  | some (Except.ok o) => Except.ok o
  | _ =>
    match attemptParse build text with
    | Except.ok o => Except.ok o
    | Except.error e1 =>
      match braceSpan text with
      | some span =>
        match attemptParse build span with
        | Except.ok o => Except.ok o
        | Except.error e2 => Except.error (PyErr.valueErr (failMsg e2))
      | none => Except.error (PyErr.valueErr (failMsg e1))

/-! ### Pydantic validation of the output classes -/

/-- Dict field lookup (`json.loads` keeps the last duplicate key). -/
def getField (fields : List (Str × Json)) (key : Str) : Option Json :=
  (fields.reverse.find? (fun kv => kv.1 == key)).map (fun kv => kv.2)

/-- Pydantic (lax) validation of a `str` field: accepts exactly strings. -/
def asStr : Json → Option Str
  | Json.str s => some s
  | _ => none

/-- Pydantic (lax) validation of a `float` field: accepts JSON numbers and
numeric strings; rejects booleans, null, arrays and objects. -/
def coerceFloat : Json → Option ℚ
  | Json.num q => some q
  | Json.str s =>
      match parseNum (pyStrip s) with
      | some (q, rest) => if rest.isEmpty then some q else none
      | none => none
  | _ => none

/-- Embeds `EmailIntroduction(**data)` (`src/app/agent/email_agent.py`): two
required `str` fields. -/
def buildEmailIntro (j : Json) : Except PyErr EmailIntroduction :=
  match j with
  | Json.obj fields =>
    match (getField fields ("greeting".data)).bind asStr with
    | none => Except.error (PyErr.valueErr ("validation error for greeting".data))
    | some greeting =>
      match (getField fields ("introduction".data)).bind asStr with
      | none => Except.error (PyErr.valueErr ("validation error for introduction".data))
      | some i => Except.ok { greeting := greeting, introduction := i }
  | _ => Except.error (PyErr.typeErr ("argument after ** must be a mapping".data))

/-- Embeds `CuratorDigestOutput(**data)`
(`src/app/agent/curator_digest_agent.py`): required `str` fields `title`,
`summary`, `reasoning`; required `float` field `relevance_score` with
`ge=0.0, le=10.0`; `str` field `category` defaulting to `"others"` when
absent — a plain `str` field, with no membership check against
`VALID_CATEGORIES`. -/
def buildCurator (j : Json) : Except PyErr CuratorDigestOutput :=
  match j with
  | Json.obj fields =>
    match (getField fields ("title".data)).bind asStr with
    | none => Except.error (PyErr.valueErr ("validation error for title".data))
    | some title =>
      match (getField fields ("summary".data)).bind asStr with
      | none => Except.error (PyErr.valueErr ("validation error for summary".data))
      | some summary =>
        match (getField fields ("relevance_score".data)).bind coerceFloat with
        | none => Except.error (PyErr.valueErr ("validation error for relevance_score".data))
        | some score =>
          if score < 0 ∨ 10 < score then
            Except.error (PyErr.valueErr ("relevance_score out of range".data))
          else
            match (getField fields ("reasoning".data)).bind asStr with
            | none => Except.error (PyErr.valueErr ("validation error for reasoning".data))
            | some reasoning =>
              match getField fields ("category".data) with
              | none =>
                  Except.ok { title := title, summary := summary,
                              relevance_score := score, reasoning := reasoning,
                              category := "others".data }
              | some v =>
                match asStr v with
                | none => Except.error (PyErr.valueErr ("validation error for category".data))
                | some category =>
                    Except.ok { title := title, summary := summary,
                                relevance_score := score, reasoning := reasoning,
                                category := category }
  | _ => Except.error (PyErr.typeErr ("argument after ** must be a mapping".data))

/-! ### Concrete example values used by witnesses and counterexamples -/

/-- A digest of source `a`, local id `n`, score `score`, clock `t`. -/
def exampleDigest (n : Str) (score : Option ℚ) (t : Int) : Digest :=
  { id := compositeId ("a".data) n, article_type := "a".data, article_id := n,
    url := n, title := n, summary := n, relevance_score := score,
    reasoning := none, category := none,
    created_at := { t := t, tz := some () }, sent_at := none }

/-- Score 7.0 at time 1. -/
def exD1 : Digest := exampleDigest ("1".data) (some 7) 1

/-- Score 9.0 at time 2. -/
def exD2 : Digest := exampleDigest ("2".data) (some 9) 2

/-- Score 9.0 at time 3. -/
def exD3 : Digest := exampleDigest ("3".data) (some 9) 3

/-- Score 3.0 at time 4. -/
def exD4 : Digest := exampleDigest ("4".data) (some 3) 4

/-- An unscored digest at time 1. -/
def exDUnscored : Digest := exampleDigest ("5".data) none 1

/-- A digest already delivered at clock 100. -/
def sentDigest : Digest := { exD1 with sent_at := some { t := 100, tz := some () } }

/-- An input item whose composite id collides with `exD1`. -/
def exampleItem : Item :=
  { type := "a".data, id := "1".data, url := "u".data, title := "t".data,
    content := "c".data, published_at := none }

/-- A well-formed model output. -/
def exampleOutput : CuratorDigestOutput :=
  { title := "T".data, summary := "S".data, relevance_score := 5,
    reasoning := "R".data, category := "others".data }

/-- A run clock. -/
def time0 : PyDateTime := { t := 0, tz := some () }

/-- A later clock. -/
def time200 : PyDateTime := { t := 200, tz := some () }

/-! ### C1 — per-run aggregate of the Scoring Orchestrator -/

/-- Loop invariant of `BaseProcessService.process`: every iteration
increments exactly one of `processed`/`failed` — a duplicate digest makes
`save_result` return `False`, which is counted as failed. -/
theorem foldl_process_counts (oracle : Item → Option CuratorDigestOutput)
    (now : PyDateTime) :
    ∀ (items : List Item) (p f : Nat) (st : DigestStore),
      (items.foldl (processStep oracle now) (p, f, st)).1 +
        (items.foldl (processStep oracle now) (p, f, st)).2.1 = p + f + items.length := by
  intro items
  induction items with
  | nil => intro p f st; simp
  | cons item rest ih =>
    intro p f st
    simp only [List.foldl_cons, List.length_cons]
    have hstep : ∀ q g st2, (processStep oracle now (q, g, st2) item).1 +
        (processStep oracle now (q, g, st2) item).2.1 = q + g + 1 := by
      intro q g st2
      unfold processStep
      cases oracle item with
      | none => simp; omega
      | some result =>
        cases hb : (save_result st2 item result now).1 <;> simp [hb] <;> omega
    rcases hps : processStep oracle now (p, f, st) item with ⟨p2, f2, st2⟩
    have := hstep p f st
    rw [hps] at this
    rw [ih p2 f2 st2]
    simp only at this
    omega

/-- Claim C1, amended: in the per-run aggregate of
`BaseProcessService.process`, every item counts as exactly one of
`processed` or `failed` — an item whose digest already exists makes
`save_result` return `False` and is counted as *failed* — so
`processed + failed = total` for every run, never strictly less. -/
theorem C1_processed_failed_total (oracle : Item → Option CuratorDigestOutput)
    (items : List Item) (store : DigestStore) (now : PyDateTime) :
    (process oracle items store now).1.processed +
      (process oracle items store now).1.failed =
      (process oracle items store now).1.total := by
  unfold process
  simpa using foldl_process_counts oracle now items 0 0 store

/-- Claim C1 counterexample: a run over one item whose digest already exists
in the store (create-if-absent finds the id) and whose model call
succeeds.  The claim predicts `processed + failed < total`; the code
counts the item as failed and yields `{total := 1, processed := 0,
failed := 1}`, so `processed + failed = total`, refuting the strict
inequality. -/
theorem C1_counterexample :
    (∃ d ∈ ([exD1] : DigestStore), d.id = compositeId exampleItem.type exampleItem.id) ∧
    (process (fun _ => some exampleOutput) [exampleItem] [exD1] time0).1 =
      { total := 1, processed := 0, failed := 1 } ∧
    ¬ ((process (fun _ => some exampleOutput) [exampleItem] [exD1] time0).1.processed +
        (process (fun _ => some exampleOutput) [exampleItem] [exD1] time0).1.failed <
        (process (fun _ => some exampleOutput) [exampleItem] [exD1] time0).1.total) := by
  refine ⟨⟨exD1, by decide, by decide⟩, by decide, by decide⟩

/-! ### C2 — `sent_at` lifecycle -/

/-- Claim C2, amended: `sent_at` is never cleared back to null —
`create_digest` leaves every existing row untouched, and
`mark_digests_as_sent` maps each row to a row with the same id whose
`sent_at` is non-null whenever it was non-null — but
`mark_digests_as_sent` *overwrites* `sent_at` with the new send time for
every listed id, including rows already sent. -/
theorem C2_sent_at_never_cleared :
    (∀ (store : DigestStore) (ids : List Str) (now : PyDateTime),
      List.Forall₂ (fun d d' : Digest =>
          d'.id = d.id ∧
          (d.id ∈ ids → d'.sent_at = some now) ∧
          (d.id ∉ ids → d'.sent_at = d.sent_at) ∧
          (d.sent_at ≠ none → d'.sent_at ≠ none))
        store (mark_digests_as_sent store ids now).2)
    ∧ (∀ (store : DigestStore) (a b u t s : Str) (rs : Option ℚ)
        (rn c : Option Str) (p : Option PyDateTime) (now : PyDateTime),
        ∀ d ∈ store, d ∈ (create_digest store a b u t s rs rn c p now).2) := by
  constructor
  · intro store ids now
    unfold mark_digests_as_sent
    simp only
    induction store with
    | nil => exact List.Forall₂.nil
    | cons d rest ih =>
      simp only [List.map_cons]
      refine List.Forall₂.cons ?_ ih
      by_cases h : d.id ∈ ids
      · simp [h]
      · simp [h]
  · intro store a b u t s rs rn c p now d hd
    unfold create_digest
    by_cases h : ∃ x ∈ store, x.id = compositeId a b
    · simp only [if_pos h]
      exact hd
    · simp only [if_neg h]
      exact List.mem_append_left _ hd

/-- Claim C2 witness: the amended theorem applied to a one-row store. -/
theorem C2_sent_at_never_cleared_witness :
    sentDigest ∈ (create_digest [sentDigest] ("b".data) ("9".data) ("u".data)
      ("t".data) ("s".data) none none none none time200).2 :=
  C2_sent_at_never_cleared.2 [sentDigest] ("b".data) ("9".data) ("u".data)
    ("t".data) ("s".data) none none none none time200 sentDigest (by decide)

/-- Claim C2 counterexample: a digest already sent at clock 100 is listed in
a later `mark_digests_as_sent` call at clock 200; its `sent_at` changes,
refuting "set at most once, never changed". -/
theorem C2_counterexample :
    sentDigest.sent_at = some { t := 100, tz := some () } ∧
    (mark_digests_as_sent [sentDigest] [sentDigest.id] time200).2 =
      [{ sentDigest with sent_at := some time200 }] ∧
    some time200 ≠ sentDigest.sent_at := by
  refine ⟨by decide, by decide, by decide⟩

/-! ### C6 — duplicate creation is a no-op -/

/-- Claim C6: creating a digest whose id already exists returns `none` and
leaves the store — hence every field of the existing row — unchanged. -/
theorem C6_duplicate_create_is_noop (store : DigestStore)
    (a b u t s : Str) (rs : Option ℚ) (rn c : Option Str)
    (p : Option PyDateTime) (now : PyDateTime)
    (h : ∃ d ∈ store, d.id = compositeId a b) :
    create_digest store a b u t s rs rn c p now = (none, store) := by
  unfold create_digest
  simp only [if_pos h]

/-- Claim C6 witness: a colliding creation against a one-row store. -/
theorem C6_duplicate_create_is_noop_witness :
    create_digest [exD1] ("a".data) ("1".data) ("u2".data) ("t2".data)
      ("s2".data) (some 9) none none none time200 = (none, [exD1]) :=
  C6_duplicate_create_is_noop [exD1] ("a".data) ("1".data) ("u2".data)
    ("t2".data) ("s2".data) (some 9) none none none time200
    ⟨exD1, by decide, by decide⟩

/-! ### C10 — `created_at` derives from `published_at` -/

/-- Claim C10: for a fresh id, `create_digest` stores `created_at` equal to
the supplied `published_at` (with UTC attached when it is naive), and
equal to the current UTC time when `published_at` is null. -/
theorem C10_created_at_source (store : DigestStore)
    (a b u t s : Str) (rs : Option ℚ) (rn c : Option Str) (now : PyDateTime)
    (h : ¬ ∃ d ∈ store, d.id = compositeId a b) :
    (∀ p : PyDateTime,
      (create_digest store a b u t s rs rn c (some p) now).1 =
        some { id := compositeId a b, article_type := a, article_id := b,
               url := u, title := t, summary := s, relevance_score := rs,
               reasoning := rn, category := c,
               created_at := if p.tz = none then { p with tz := some () } else p,
               sent_at := none })
    ∧ (create_digest store a b u t s rs rn c none now).1 =
        some { id := compositeId a b, article_type := a, article_id := b,
               url := u, title := t, summary := s, relevance_score := rs,
               reasoning := rn, category := c, created_at := now,
               sent_at := none } := by
  constructor
  · intro p
    unfold create_digest
    simp only [if_neg h]
  · unfold create_digest
    simp only [if_neg h]

/-- Claim C10 witness: a naive `published_at` gets UTC attached; a null
`published_at` falls back to the current time. -/
theorem C10_created_at_source_witness :
    (create_digest [] ("a".data) ("1".data) ("u".data) ("t".data) ("s".data)
        none none none (some { t := 42, tz := none }) time200).1 =
      some { id := compositeId ("a".data) ("1".data), article_type := "a".data,
             article_id := "1".data, url := "u".data, title := "t".data,
             summary := "s".data, relevance_score := none, reasoning := none,
             category := none, created_at := { t := 42, tz := some () },
             sent_at := none } := by
  have := (C10_created_at_source [] ("a".data) ("1".data) ("u".data)
    ("t".data) ("s".data) none none none time200 (by decide)).1
    { t := 42, tz := none }
  simpa using this

/-- A nonempty list is not `isEmpty`. -/
theorem isEmpty_false_of_ne_nil {α : Type} {l : List α} (h : l ≠ []) :
    l.isEmpty = false := by
  cases l with
  | nil => exact absurd rfl h
  | cons a t => rfl

/-! ### C3 — send failure marks nothing as sent -/

/-- Claim C3: when the send capability raises a transport error during a
delivery with a nonempty window, `send_digest_email` propagates the error
and returns the store unchanged — the `sent_at` of no digest moves — so a
subsequent fetch of unsent in-window digests returns the same digests. -/
theorem C3_send_failure_preserves_unsent (store : DigestStore) (now : PyDateTime)
    (hours top_n : Nat) (e : Str)
    (h : get_recent_digests store now hours true ≠ []) :
    send_digest_email store now hours top_n (SendOutcome.failTransport e) =
      (Except.error e, store) ∧
    get_recent_digests (send_digest_email store now hours top_n
        (SendOutcome.failTransport e)).2 now hours true =
      get_recent_digests store now hours true := by
  have hne := isEmpty_false_of_ne_nil h
  have h1 : send_digest_email store now hours top_n (SendOutcome.failTransport e) =
      (Except.error e, store) := by
    simp only [send_digest_email, hne, Bool.false_eq_true, if_false]
  exact ⟨h1, by rw [h1]⟩

/-- Claim C3 witness: a one-digest window, transport failure at send time. -/
theorem C3_send_failure_preserves_unsent_witness :
    send_digest_email [exD1] time200 24 10
        (SendOutcome.failTransport ("boom".data)) =
      (Except.error ("boom".data), [exD1]) :=
  (C3_send_failure_preserves_unsent [exD1] time200 24 10 ("boom".data)
    (by decide)).1

/-! ### C4 — ranking order and top-n selection -/

/-- Claim C4: when scored digests exist, `rankDigests` is a permutation of
exactly the scored digests, sorted so that later entries never beat
earlier ones on the key (`relevance_score` descending, `created_at`
descending as tie-break); `rankAndSelect` is its first `top_n` entries,
and is all of them when fewer than `top_n` exist; the order is a
deterministic function of the input; and on scores `[7, 9, 9, 3]` at
times `1 < 2 < 3 < 4` with `top_n = 3` the result is
`[9@3, 9@2, 7@1]`. -/
theorem C4_rank_and_select :
    (∀ (ds : List Digest) (n : Nat),
        ds.filter (fun d => d.relevance_score.isSome) ≠ [] →
        (rankDigests ds).Perm (ds.filter (fun d => d.relevance_score.isSome)) ∧
        List.Pairwise rankRel (rankDigests ds) ∧
        rankAndSelect ds n = (rankDigests ds).take n ∧
        ((ds.filter (fun d => d.relevance_score.isSome)).length ≤ n →
          rankAndSelect ds n = rankDigests ds))
    ∧ (∀ (ds ds' : List Digest) (n : Nat), ds = ds' →
        rankAndSelect ds n = rankAndSelect ds' n)
    ∧ rankAndSelect [exD1, exD2, exD3, exD4] 3 = [exD3, exD2, exD1] := by
  refine ⟨?_, ?_, by decide⟩
  · intro ds n h
    have hsel : scoredSelection ds = ds.filter (fun d => d.relevance_score.isSome) := by
      unfold scoredSelection
      simp only [isEmpty_false_of_ne_nil h, Bool.false_eq_true, if_false]
    have hlen : (rankDigests ds).length =
        (ds.filter (fun d => d.relevance_score.isSome)).length := by
      unfold rankDigests
      rw [hsel]
      exact (List.perm_insertionSort rankRel _).length_eq
    refine ⟨?_, ?_, rfl, ?_⟩
    · unfold rankDigests
      rw [hsel]
      exact List.perm_insertionSort rankRel _
    · unfold rankDigests
      exact List.sorted_insertionSort rankRel _
    · intro hn
      unfold rankAndSelect
      apply List.take_of_length_le
      omega
  · intro ds ds' n hEq
    rw [hEq]

/-- Claim C4 witness: the general part applied to the four example digests. -/
theorem C4_rank_and_select_witness :
    (rankDigests [exD1, exD2, exD3, exD4]).Perm
      ([exD1, exD2, exD3, exD4].filter (fun d => d.relevance_score.isSome)) :=
  (C4_rank_and_select.1 [exD1, exD2, exD3, exD4] 3 (by decide)).1

/-! ### C7 — degrade gracefully when nothing is scored -/

/-- Claim C7: when no digest in the window carries a score, the selector
falls back to all digests (`scoredSelection ds = ds`), and delivery
proceeds (a nonempty window is never reported as skipped, whatever the
send capability does); when at least one digest is scored, unscored
digests are excluded from ranking. -/
theorem C7_unscored_fallback :
    (∀ ds : List Digest, (∀ d ∈ ds, d.relevance_score = none) →
        scoredSelection ds = ds)
    ∧ (∀ ds : List Digest, (∃ d ∈ ds, d.relevance_score.isSome) →
        scoredSelection ds = ds.filter (fun d => d.relevance_score.isSome))
    ∧ (∀ (store : DigestStore) (now : PyDateTime) (hours n : Nat)
        (send : SendOutcome), get_recent_digests store now hours true ≠ [] →
        isSkipped (send_digest_email store now hours n send) = false) := by
  refine ⟨?_, ?_, ?_⟩
  · intro ds h
    have hfil : ds.filter (fun d => d.relevance_score.isSome) = [] := by
      rw [List.filter_eq_nil_iff]
      intro d hd
      rw [h d hd]
      simp
    unfold scoredSelection
    simp only [hfil]
    rfl
  · intro ds h
    have hfil : (ds.filter (fun d => d.relevance_score.isSome)).isEmpty = false := by
      apply isEmpty_false_of_ne_nil
      intro hnil
      rcases h with ⟨d, hd, hs⟩
      have := List.filter_eq_nil_iff.mp hnil d hd
      simp [hs] at this
    unfold scoredSelection
    simp only [hfil, Bool.false_eq_true, if_false]
  · intro store now hours n send h
    have hne := isEmpty_false_of_ne_nil h
    simp only [send_digest_email, hne, Bool.false_eq_true, if_false]
    cases send <;> rfl

/-- Claim C7 witness: a window holding only an unscored digest is returned
whole by the selector. -/
theorem C7_unscored_fallback_witness :
    scoredSelection [exDUnscored] = [exDUnscored] :=
  C7_unscored_fallback.1 [exDUnscored] (by decide)

/-! ### C9 — introduction fallback behaviour -/

/-- Claim C9, amended: with a nonempty article list, a model-call failure
yields the deterministic fallback greeting *and* fallback introduction;
but a model result whose greeting does not start with `"Hey {name}"` has
only its greeting replaced — the introduction keeps the model output; a
matching greeting passes through untouched. -/
theorem C9_intro_fallback :
    (∀ (name date : Str) (arts : List Digest) (e : Str), arts ≠ [] →
      generate_introduction name date arts (IntroCall.fail e) =
        { greeting := fallbackGreeting name date, introduction := fallbackIntro })
    ∧ (∀ (name date : Str) (arts : List Digest) (i : EmailIntroduction),
        arts ≠ [] →
        (expectedGreetingStart name).isPrefixOf i.greeting = false →
        generate_introduction name date arts (IntroCall.ok i) =
          { greeting := fallbackGreeting name date,
            introduction := i.introduction })
    ∧ (∀ (name date : Str) (arts : List Digest) (i : EmailIntroduction),
        arts ≠ [] →
        (expectedGreetingStart name).isPrefixOf i.greeting = true →
        generate_introduction name date arts (IntroCall.ok i) = i) := by
  refine ⟨?_, ?_, ?_⟩
  · intro name date arts e h
    unfold generate_introduction
    rw [isEmpty_false_of_ne_nil h]
    rfl
  · intro name date arts i h hpre
    unfold generate_introduction
    rw [isEmpty_false_of_ne_nil h]
    simp only [Bool.false_eq_true, if_false, hpre]
  · intro name date arts i h hpre
    unfold generate_introduction
    rw [isEmpty_false_of_ne_nil h]
    simp only [Bool.false_eq_true, if_false, hpre, if_true]

/-- Claim C9 witness: a mismatching greeting gets the fallback greeting while
the introduction keeps the model text. -/
theorem C9_intro_fallback_witness :
    generate_introduction ("Bob".data) ("May 01, 2025".data) [exD1]
        (IntroCall.ok { greeting := "Hi Bob, hello".data,
                        introduction := "model text".data }) =
      { greeting := fallbackGreeting ("Bob".data) ("May 01, 2025".data),
        introduction := "model text".data } :=
  C9_intro_fallback.2.1 ("Bob".data) ("May 01, 2025".data) [exD1]
    { greeting := "Hi Bob, hello".data, introduction := "model text".data }
    (by decide) (by decide)

/-- Claim C9 counterexample: the model call *succeeds* but returns a greeting
without the expected `"Hey Bob"` start; the resulting payload carries the
fallback greeting yet its introduction is the model output, not the
deterministic fallback string — refuting "both ... are the deterministic
fallback strings". -/
theorem C9_counterexample :
    (expectedGreetingStart ("Bob".data)).isPrefixOf ("Hi Bob, hello".data) = false ∧
    (generate_introduction ("Bob".data) ("May 01, 2025".data) [exD1]
        (IntroCall.ok { greeting := "Hi Bob, hello".data,
                        introduction := "model text".data })).introduction =
      ("model text".data) ∧
    ("model text".data : Str) ≠ fallbackIntro := by
  refine ⟨by decide, by decide, by decide⟩

/-! ### C5 — extraction flow -/

/-- Claim C5, amended: `_parse_structured_output` chooses a single working
text (tagged fence contents if present, else first fence contents, else
the raw text) and parses it once; on a caught parse/validation error it
brace-searches the *working text* (not the original) and tries that span;
when the fallback also fails or no span exists, it raises a `ValueError`
carrying the error of the primary attempt; an uncaught error propagates.  It
does not retry the raw text after a failed fence parse. -/
theorem C5_extraction_flow {O : Type} (build : Json → Except PyErr O)
    (text : Str) :
    (∀ o, attemptParse build (extractWorkingText text) = Except.ok o →
        parseStructuredOutput build text = Except.ok o)
    ∧ (∀ e, attemptParse build (extractWorkingText text) = Except.error e →
        isCaught e = false → parseStructuredOutput build text = Except.error e)
    ∧ (∀ e span o, attemptParse build (extractWorkingText text) = Except.error e →
        isCaught e = true → braceSpan (extractWorkingText text) = some span →
        attemptParse build span = Except.ok o →
        parseStructuredOutput build text = Except.ok o)
    ∧ (∀ e span e2, attemptParse build (extractWorkingText text) = Except.error e →
        isCaught e = true → braceSpan (extractWorkingText text) = some span →
        attemptParse build span = Except.error e2 →
        parseStructuredOutput build text =
          Except.error (PyErr.valueErr (failMsg e)))
    ∧ (∀ e, attemptParse build (extractWorkingText text) = Except.error e →
        isCaught e = true → braceSpan (extractWorkingText text) = none →
        parseStructuredOutput build text =
          Except.error (PyErr.valueErr (failMsg e))) := by
  refine ⟨?_, ?_, ?_, ?_, ?_⟩
  · intro o h
    simp only [parseStructuredOutput, h]
  · intro e h hcaught
    simp only [parseStructuredOutput, h, hcaught, Bool.false_eq_true, if_false]
  · intro e span o h hcaught hspan hok
    simp only [parseStructuredOutput, h, hcaught, if_true, hspan, hok]
  · intro e span e2 h hcaught hspan herr
    simp only [parseStructuredOutput, h, hcaught, if_true, hspan, herr]
  · intro e h hcaught hspan
    simp only [parseStructuredOutput, h, hcaught, if_true, hspan]

/-- A model reply wrapping junk *and* valid JSON: the tagged fence holds
prose, the JSON object sits outside the fence. -/
def fencedJunkText : Str :=
  "```json\nnot json\n```\n\x7b\"greeting\": \"Hi\", \"introduction\": \"X\"\x7d".data

/-- A model reply whose tagged fence holds prose around a JSON object, so
the brace-match fallback inside the working text succeeds. -/
def fencedProseText : Str :=
  "```json\nResult: \x7b\"greeting\": \"Hi\", \"introduction\": \"X\"\x7d\n```".data

/-- The brace span inside the working text of `fencedProseText`. -/
def proseSpan : Str :=
  "\x7b\"greeting\": \"Hi\", \"introduction\": \"X\"\x7d".data

/-- Claim C5 witness: the amended flow applied to `fencedProseText` — the
fence contents fail to parse directly, and the brace-matched span inside
the *working text* rescues the extraction. -/
theorem C5_extraction_flow_witness :
    parseStructuredOutput buildEmailIntro fencedProseText =
      Except.ok { greeting := "Hi".data, introduction := "X".data } :=
  (C5_extraction_flow buildEmailIntro fencedProseText).2.2.1
    (PyErr.parseErr ("Expecting value".data)) proseSpan
    { greeting := "Hi".data, introduction := "X".data } rfl rfl rfl rfl

/-- Claim C5 counterexample: on `fencedJunkText` the ordered-attempt
algorithm (retry the raw text, then brace-match the original text)
succeeds, but the code parses only the fence contents and brace-searches
only those contents, so it raises the extraction error — the code does
not implement attempts (3)/(4) over the original text once a fence is
present. -/
theorem C5_counterexample :
    parseStructuredOutput buildEmailIntro fencedJunkText =
      Except.error (PyErr.valueErr (failMsg (PyErr.parseErr ("Expecting value".data)))) ∧
    extractClaimAlgorithm buildEmailIntro fencedJunkText =
      Except.ok { greeting := "Hi".data, introduction := "X".data } :=
  ⟨rfl, rfl⟩

/-! ### C8 — field-constraint validation -/

/-- Embeds `VALID_CATEGORIES` (`src/app/agent/curator_digest_agent.py`): the
fixed closed set of categories. -/
def validCategories : List Str :=
  ["technique".data, "research".data, "education".data, "announcement".data,
   "analysis".data, "tutorial".data, "opinion".data, "news".data, "others".data]

/-- Claim C8, amended: after parsing, a wrong-typed `title`, a wrong-typed
`relevance_score`, or a `relevance_score` outside `[0, 10]` fails
validation with a `ValueError` (an extraction error, no silent coercion);
a missing `category` falls back to the default `"others"`; but a supplied
`category` string is accepted *unchanged*, with no membership check
against the fixed closed set. -/
theorem C8_field_validation (fields : List (Str × Json)) :
    (∀ q : ℚ, getField fields ("title".data) = some (Json.num q) →
        ∃ m, buildCurator (Json.obj fields) = Except.error (PyErr.valueErr m))
    ∧ (∀ q : ℚ, getField fields ("relevance_score".data) = some (Json.num q) →
        (q < 0 ∨ 10 < q) →
        ∃ m, buildCurator (Json.obj fields) = Except.error (PyErr.valueErr m))
    ∧ (∀ b : Bool, getField fields ("relevance_score".data) = some (Json.bool b) →
        ∃ m, buildCurator (Json.obj fields) = Except.error (PyErr.valueErr m))
    ∧ (getField fields ("category".data) = none →
        ∀ out, buildCurator (Json.obj fields) = Except.ok out →
          out.category = ("others".data))
    ∧ (∀ (s : Str) out, getField fields ("category".data) = some (Json.str s) →
        buildCurator (Json.obj fields) = Except.ok out → out.category = s) := by
  refine ⟨?_, ?_, ?_, ?_, ?_⟩
  · intro q hq
    have ht : (getField fields ("title".data)).bind asStr = none := by
      rw [hq]; rfl
    exact ⟨("validation error for title".data), by simp only [buildCurator, ht]⟩
  · intro q hq hrange
    have hsc : (getField fields ("relevance_score".data)).bind coerceFloat = some q := by
      rw [hq]; rfl
    cases ht : (getField fields ("title".data)).bind asStr with
    | none => exact ⟨("validation error for title".data), by simp only [buildCurator, ht]⟩
    | some title =>
      cases hs : (getField fields ("summary".data)).bind asStr with
      | none => exact ⟨("validation error for summary".data), by simp only [buildCurator, ht, hs]⟩
      | some summary =>
        refine ⟨("relevance_score out of range".data), ?_⟩
        simp only [buildCurator, ht, hs, hsc]
        rw [if_pos hrange]
  · intro b hb
    have hsc : (getField fields ("relevance_score".data)).bind coerceFloat = none := by
      rw [hb]; rfl
    cases ht : (getField fields ("title".data)).bind asStr with
    | none => exact ⟨("validation error for title".data), by simp only [buildCurator, ht]⟩
    | some title =>
      cases hs : (getField fields ("summary".data)).bind asStr with
      | none => exact ⟨("validation error for summary".data), by simp only [buildCurator, ht, hs]⟩
      | some summary =>
        exact ⟨("validation error for relevance_score".data),
          by simp only [buildCurator, ht, hs, hsc]⟩
  · intro hcat out hok
    cases ht : (getField fields ("title".data)).bind asStr with
    | none =>
      simp only [buildCurator, ht] at hok
      exact Except.noConfusion hok
    | some title =>
      cases hs : (getField fields ("summary".data)).bind asStr with
      | none =>
        simp only [buildCurator, ht, hs] at hok
        exact Except.noConfusion hok
      | some summary =>
        cases hsc : (getField fields ("relevance_score".data)).bind coerceFloat with
        | none =>
          simp only [buildCurator, ht, hs, hsc] at hok
          exact Except.noConfusion hok
        | some score =>
          by_cases hr : score < 0 ∨ 10 < score
          · simp only [buildCurator, ht, hs, hsc, if_pos hr] at hok
            exact Except.noConfusion hok
          · cases hre : (getField fields ("reasoning".data)).bind asStr with
            | none =>
              simp only [buildCurator, ht, hs, hsc, if_neg hr, hre] at hok
              exact Except.noConfusion hok
            | some reasoning =>
              simp only [buildCurator, ht, hs, hsc, if_neg hr, hre, hcat,
                Except.ok.injEq] at hok
              rw [← hok]
  · intro s out hcat hok
    cases ht : (getField fields ("title".data)).bind asStr with
    | none =>
      simp only [buildCurator, ht] at hok
      exact Except.noConfusion hok
    | some title =>
      cases hs : (getField fields ("summary".data)).bind asStr with
      | none =>
        simp only [buildCurator, ht, hs] at hok
        exact Except.noConfusion hok
      | some summary =>
        cases hsc : (getField fields ("relevance_score".data)).bind coerceFloat with
        | none =>
          simp only [buildCurator, ht, hs, hsc] at hok
          exact Except.noConfusion hok
        | some score =>
          by_cases hr : score < 0 ∨ 10 < score
          · simp only [buildCurator, ht, hs, hsc, if_pos hr] at hok
            exact Except.noConfusion hok
          · cases hre : (getField fields ("reasoning".data)).bind asStr with
            | none =>
              simp only [buildCurator, ht, hs, hsc, if_neg hr, hre] at hok
              exact Except.noConfusion hok
            | some reasoning =>
              have hcs : asStr (Json.str s) = some s := rfl
              simp only [buildCurator, ht, hs, hsc, if_neg hr, hre, hcat, hcs,
                Except.ok.injEq] at hok
              rw [← hok]

/-- A parsed model payload whose category lies outside the fixed set. -/
def exampleFields : List (Str × Json) :=
  [("title".data, Json.str ("T".data)), ("summary".data, Json.str ("S".data)),
   ("relevance_score".data, Json.num 5), ("reasoning".data, Json.str ("R".data)),
   ("category".data, Json.str ("banana".data))]

/-- The validated output of `exampleFields`. -/
def exampleCuratorOut : CuratorDigestOutput :=
  { title := "T".data, summary := "S".data, relevance_score := 5,
    reasoning := "R".data, category := "banana".data }

/-- Claim C8 witness: validation of `exampleFields` succeeds and keeps the
out-of-set category. -/
theorem C8_field_validation_witness :
    buildCurator (Json.obj exampleFields) = Except.ok exampleCuratorOut ∧
    exampleCuratorOut.category = ("banana".data) :=
  ⟨rfl, (C8_field_validation exampleFields).2.2.2.2 ("banana".data)
    exampleCuratorOut rfl rfl⟩

/-- A raw model reply carrying an out-of-set category. -/
def categoryProbeText : Str :=
  "\x7b\"title\": \"T\", \"summary\": \"S\", \"relevance_score\": 7.5, \"reasoning\": \"R\", \"category\": \"banana\"\x7d".data

/-- Claim C8 counterexample: a full extraction whose payload carries
`category = "banana"`, a value outside the fixed closed set, succeeds with
the value kept as-is — not replaced by the default `"others"` — refuting
the claimed fallback for out-of-set values. -/
theorem C8_counterexample :
    parseStructuredOutput buildCurator categoryProbeText =
      Except.ok { title := "T".data, summary := "S".data,
                  relevance_score := mkRat 15 2, reasoning := "R".data,
                  category := "banana".data } ∧
    ("banana".data : Str) ∉ validCategories ∧
    ("banana".data : Str) ≠ ("others".data) := by
  refine ⟨rfl, by decide, by decide⟩

end AIFrontier
